import Mathlib

/-!
Verification of the Stock-AI-Agent façade (`stock_agent_system.py`) and its
configuration module (`config.py`) against the system specification.

The Python code is shallowly embedded: result dictionaries become association
lists over a small value type, the mutable fields of the `StockAgentSystem`
object become an explicit state record, exceptions become an outcome type, and
`os.environ` becomes a function from variable names to optional values.
The `OrchestratorAgent` lives in `agents.py`, which is not among the source
files; it is modelled as an opaque function parameter (see `Orchestrator`).
-/

namespace StockAI

/-! ## Python values and dictionaries -/

/-- Values occurring in the result dictionaries the façade builds or passes on. -/
inductive PyVal where
  | str : String → PyVal
  | bool : Bool → PyVal
  | rat : Rat → PyVal
deriving DecidableEq, Repr

/-- A Python dictionary with string keys, as an association list. -/
abbrev Dict := List (String × PyVal)

/-- Embeds `d.get(k)` / `d[k]` lookup on a dictionary. -/
def dictGet (d : Dict) (k : String) : Option PyVal :=
  (d.find? (fun p => p.fst == k)).map (fun p => p.snd)

/-- The dictionary has key `k` bound to a boolean value. -/
def hasBoolKey (d : Dict) (k : String) : Bool :=
  match dictGet d k with
  | some (PyVal.bool _) => true
  | _ => false

/-- The dictionary has key `k` bound to a string value. -/
def hasStrKey (d : Dict) (k : String) : Bool :=
  match dictGet d k with
  | some (PyVal.str _) => true
  | _ => false

/-! ## Environment and configuration (`config.py`) -/

/-- The process environment, `os.environ`: unset variables map to `none`. -/
abbrev Env := String → Option String

/-- Embeds `os.getenv(k, d)`: the variable's value when set, else the default. -/
def getenvD (env : Env) (k d : String) : String := (env k).getD d

/-- Python truthiness of an optional string: `None` and the empty string are falsy. -/
def truthy : Option String → Bool
  | none => false
  | some s => s != ""

/-- Digits of a decimal numeral folded into a natural number. -/
def digitsToNat (l : List Char) : Nat :=
  l.foldl (fun acc c => acc * 10 + (c.toNat - 48)) 0

/-- Splits a character list at the first dot: integer part, fractional part,
and whether a dot was present. -/
def splitDot : List Char → List Char × List Char × Bool
  | [] => ([], [], false)
  | c :: cs =>
      if c = '.' then ([], cs, true)
      else
        let r := splitDot cs
        (c :: r.1, r.2.1, r.2.2)

/-- Embeds `float(s)` for the plain nonnegative decimal numerals used by the
configuration defaults, as an exact rational (the claims at stake only
distinguish which decimal numeral each default is, so exact decimal arithmetic
is faithful). -/
def pyFloat (s : String) : Rat :=
  match splitDot s.data with
  | (i, f, true) => (digitsToNat i : Rat) + (digitsToNat f : Rat) / ((10 : Rat) ^ f.length)
  | (i, _, false) => (digitsToNat i : Rat)

/-- Embeds `int(s)` for the well-formed nonnegative numerals used by the
configuration. -/
def pyInt (s : String) : Int := (digitsToNat s.data : Int)

/-- Embeds `s.lower()`. -/
def pyLower (s : String) : String := String.mk (s.data.map Char.toLower)

/-- The resolved configuration: the class attributes of `Config` in `config.py`. -/
structure Config where
  OPENAI_API_KEY : Option String
  OPENAI_MODEL : String
  ALPHA_VANTAGE_API_KEY : Option String
  FINNHUB_API_KEY : Option String
  MASTER_AGENT_TEMPERATURE : Rat
  JUNIOR_AGENT_TEMPERATURE : Rat
  ORCHESTRATOR_AGENT_TEMPERATURE : Rat
  MAX_ITERATIONS : Int
  VERBOSE : Bool
deriving DecidableEq, Repr

/-- Resolution of the `Config` class attributes from the environment, exactly as
`config.py` computes them at import time. -/
def Config.fromEnv (env : Env) : Config where
  OPENAI_API_KEY := env "OPENAI_API_KEY"
  OPENAI_MODEL := getenvD env "OPENAI_MODEL" "gpt-4"
  ALPHA_VANTAGE_API_KEY := env "ALPHA_VANTAGE_API_KEY"
  FINNHUB_API_KEY := env "FINNHUB_API_KEY"
  MASTER_AGENT_TEMPERATURE := pyFloat (getenvD env "MASTER_AGENT_TEMPERATURE" "0.7")
  JUNIOR_AGENT_TEMPERATURE := pyFloat (getenvD env "JUNIOR_AGENT_TEMPERATURE" "0.5")
  ORCHESTRATOR_AGENT_TEMPERATURE := pyFloat (getenvD env "ORCHESTRATOR_AGENT_TEMPERATURE" "0.3")
  MAX_ITERATIONS := pyInt (getenvD env "MAX_ITERATIONS" "10")
  VERBOSE := pyLower (getenvD env "VERBOSE" "True") == "true"

/-- Embeds `Config.validate_config`: raises `ValueError` (the `error` branch)
when the LLM key is falsy; otherwise returns, printing the degraded-capability
warning (collected in the `ok` payload) when both stock keys are falsy. -/
def Config.validate_config (c : Config) : Except String (List String) :=
  if !truthy c.OPENAI_API_KEY then
    Except.error "OPENAI_API_KEY is required. Please set it in your .env file"
  else if !truthy c.ALPHA_VANTAGE_API_KEY && !truthy c.FINNHUB_API_KEY then
    Except.ok ["Warning: No stock API key found. Using yfinance as fallback."]
  else
    Except.ok []

/-- Python `a or b` on optional strings: `a` when truthy, otherwise `b`. -/
def pyOr (a b : Option String) : Option String := if truthy a then a else b

/-- Embeds `Config.get_stock_api_key`: `ALPHA_VANTAGE_API_KEY or FINNHUB_API_KEY`. -/
def Config.get_stock_api_key (c : Config) : Option String :=
  pyOr c.ALPHA_VANTAGE_API_KEY c.FINNHUB_API_KEY

/-! ## The façade (`stock_agent_system.py`) -/

/-- Outcome of calling a Python function: a returned value, or a raised
exception carrying the text of `str(e)`. -/
inductive PyOutcome (α : Type) where
  | ok : α → PyOutcome α
  | exn : String → PyOutcome α
deriving DecidableEq, Repr

/-- Modelled from the spec: `OrchestratorAgent.orchestrate_analysis` is defined
in `agents.py`, which is not among the source files. Per the spec it takes the
query text and either returns an AgentResult dictionary or fails; we model it
as an arbitrary function from the query to a returned dictionary or a raised
exception. -/
abbrev Orchestrator := String → PyOutcome Dict

/-- One entry of the session history, as appended by `analyze_query`. -/
structure HistoryEntry where
  query : String
  result : Dict
  timestamp : Rat
deriving DecidableEq, Repr

/-- The mutable state of a `StockAgentSystem` object that the query-processing
and history methods read and write. -/
structure StockAgentSystem where
  is_initialized : Bool
  session_history : List HistoryEntry
deriving DecidableEq, Repr

/-- Embeds `StockAgentSystem.__init__` together with `_initialize_system`:
`validate_config` may raise (aborting construction before any agent exists);
otherwise the tool set is built and `_initialize_system` constructs the three
agents inside a try/except that swallows any failure and leaves
`is_initialized` false. `agentInitOk` stands for whether the agent
constructions (code in `agents.py`, not among the source files) succeed. -/
def systemInit (c : Config) (agentInitOk : Bool) : Except String StockAgentSystem :=
  match c.validate_config with
  | Except.error e => Except.error e
  | Except.ok _ => Except.ok { is_initialized := agentInitOk, session_history := [] }

/-- Embeds `StockAgentSystem.analyze_query`. The orchestrator call and the
clock read are the external effects; `orch` gives the orchestrator's behavior
and `now` the value `asyncio.get_event_loop().time()` returns. The function
returns the result dictionary together with the updated object state. -/
def StockAgentSystem.analyze_query (orch : Orchestrator) (now : Rat)
    (s : StockAgentSystem) (query : String) : Dict × StockAgentSystem :=
  if !s.is_initialized then
    ([("error", PyVal.str "System not initialized")], s)
  else
    match orch query with
    | PyOutcome.ok result =>
        (result,
         { s with session_history :=
             s.session_history ++ [{ query := query, result := result, timestamp := now }] })
    | PyOutcome.exn e =>
        ([("error", PyVal.str ("Analysis failed: " ++ e)),
          ("query", PyVal.str query)], s)

/-- Embeds `StockAgentSystem.get_stock_price`. -/
def StockAgentSystem.get_stock_price (orch : Orchestrator) (now : Rat)
    (s : StockAgentSystem) (symbol : String) : Dict × StockAgentSystem :=
  StockAgentSystem.analyze_query orch now s ("Get the current stock price for " ++ symbol)

/-- Embeds `StockAgentSystem.get_stock_info`. -/
def StockAgentSystem.get_stock_info (orch : Orchestrator) (now : Rat)
    (s : StockAgentSystem) (symbol : String) : Dict × StockAgentSystem :=
  StockAgentSystem.analyze_query orch now s ("Get detailed information about " ++ symbol)

/-- Embeds `StockAgentSystem.analyze_stock`. -/
def StockAgentSystem.analyze_stock (orch : Orchestrator) (now : Rat)
    (s : StockAgentSystem) (symbol : String) : Dict × StockAgentSystem :=
  StockAgentSystem.analyze_query orch now s ("Perform comprehensive analysis of " ++ symbol)

/-- Embeds `StockAgentSystem.compare_stocks`, including the `", ".join(symbols)`. -/
def StockAgentSystem.compare_stocks (orch : Orchestrator) (now : Rat)
    (s : StockAgentSystem) (symbols : List String) : Dict × StockAgentSystem :=
  let symbols_str := String.intercalate ", " symbols
  StockAgentSystem.analyze_query orch now s ("Compare these stocks: " ++ symbols_str)

/-- Embeds `StockAgentSystem.portfolio_analysis`, including the `", ".join(symbols)`. -/
def StockAgentSystem.portfolio_analysis (orch : Orchestrator) (now : Rat)
    (s : StockAgentSystem) (symbols : List String) : Dict × StockAgentSystem :=
  let symbols_str := String.intercalate ", " symbols
  StockAgentSystem.analyze_query orch now s ("Analyze this portfolio: " ++ symbols_str)

/-- Embeds `StockAgentSystem.market_research`. -/
def StockAgentSystem.market_research (orch : Orchestrator) (now : Rat)
    (s : StockAgentSystem) (topic : String) : Dict × StockAgentSystem :=
  StockAgentSystem.analyze_query orch now s ("Research the market for: " ++ topic)

/-- Embeds `StockAgentSystem.get_session_history`. -/
def StockAgentSystem.get_session_history (s : StockAgentSystem) : List HistoryEntry :=
  s.session_history

/-- Embeds `StockAgentSystem.clear_session_history`. -/
def StockAgentSystem.clear_session_history (s : StockAgentSystem) : StockAgentSystem :=
  { s with session_history := [] }

/-! ## Concrete instances used by counterexamples and witnesses -/

/-- An environment with every variable unset. -/
def emptyEnv : Env := fun _ => none

/-- An environment where only the LLM credential is set. -/
def envOnlyOpenAI : Env := fun k => if k == "OPENAI_API_KEY" then some "sk-test" else none

/-- An orchestrator whose call always raises. -/
def orchRaises : Orchestrator := fun _ => PyOutcome.exn "boom"

/-- An orchestrator that always returns a successful AgentResult dictionary. -/
def orchOkTrue : Orchestrator := fun _ =>
  PyOutcome.ok [("success", PyVal.bool true), ("output", PyVal.str "fine"),
                ("agent", PyVal.str "junior")]

/-- An orchestrator that always returns a failed AgentResult dictionary. -/
def orchOkFalse : Orchestrator := fun _ =>
  PyOutcome.ok [("success", PyVal.bool false), ("error", PyVal.str "tool error"),
                ("agent", PyVal.str "junior")]

/-- An initialized system with empty history. -/
def sysReady : StockAgentSystem := { is_initialized := true, session_history := [] }

/-- A system whose initialization failed. -/
def sysDown : StockAgentSystem := { is_initialized := false, session_history := [] }

/-- A result dictionary satisfies the caller-facing checkability contract when
it carries a boolean `success` key or a string `error` key. -/
def resultChecked (d : Dict) : Bool := hasBoolKey d "success" || hasStrKey d "error"

/-! ## Helper lemmas -/

/-- Every path of `analyze_query` yields a dictionary with a boolean `success`
key or a string `error` key, provided the orchestrator's returned dictionaries
carry a boolean `success` key. -/
theorem analyze_query_resultChecked (orch : Orchestrator)
    (hw : ∀ q d, orch q = PyOutcome.ok d → hasBoolKey d "success" = true)
    (now : Rat) (s : StockAgentSystem) (query : String) :
    resultChecked (StockAgentSystem.analyze_query orch now s query).fst = true := by
  by_cases hinit : s.is_initialized
  · cases horch : orch query with
    | ok d =>
        have hb := hw query d horch
        simp [StockAgentSystem.analyze_query, hinit, horch, resultChecked, hb]
    | exn e =>
        simp [StockAgentSystem.analyze_query, hinit, horch, resultChecked,
              hasStrKey, dictGet, List.find?]
  · simp [StockAgentSystem.analyze_query, hinit, resultChecked,
          hasStrKey, dictGet, List.find?]

/-- Evaluation of the default master-agent temperature numeral. -/
theorem pyFloat_zero_seven : pyFloat "0.7" = 7 / 10 := by
  have h : pyFloat "0.7" =
      (digitsToNat ['0'] : Rat) + (digitsToNat ['7'] : Rat) / (10 : Rat) ^ 1 := rfl
  have h0 : digitsToNat ['0'] = 0 := by decide
  have h7 : digitsToNat ['7'] = 7 := by decide
  rw [h, h0, h7]
  norm_num

/-- Evaluation of the default junior-agent temperature numeral. -/
theorem pyFloat_zero_five : pyFloat "0.5" = 5 / 10 := by
  have h : pyFloat "0.5" =
      (digitsToNat ['0'] : Rat) + (digitsToNat ['5'] : Rat) / (10 : Rat) ^ 1 := rfl
  have h0 : digitsToNat ['0'] = 0 := by decide
  have h5 : digitsToNat ['5'] = 5 := by decide
  rw [h, h0, h5]
  norm_num

/-- Evaluation of the default orchestrator-agent temperature numeral. -/
theorem pyFloat_zero_three : pyFloat "0.3" = 3 / 10 := by
  have h : pyFloat "0.3" =
      (digitsToNat ['0'] : Rat) + (digitsToNat ['3'] : Rat) / (10 : Rat) ^ 1 := rfl
  have h0 : digitsToNat ['0'] = 0 := by decide
  have h3 : digitsToNat ['3'] = 3 := by decide
  rw [h, h0, h3]
  norm_num

/-! ## Claims -/

/-- C1, counterexample: on the not-initialized guard path, `analyze_query`
returns a dictionary with no boolean `success` key at all, refuting the claim
that every path's result contains a boolean `success` key. -/
theorem C1_counterexample :
    hasBoolKey (StockAgentSystem.analyze_query orchRaises 0 sysDown "q").fst "success" = false := by
  decide

/-- C1 (amended): every query-processing entry point returns a dictionary on
every path, and that dictionary carries a boolean `success` key or a string
`error` key (the guard and caught-exception paths carry `error` only), provided
the orchestrator's returned AgentResult dictionaries carry a boolean `success`
key; so a caller can uniformly check `success` with an absence-tolerant lookup. -/
theorem C1_entry_points_checkable (orch : Orchestrator)
    (hw : ∀ q d, orch q = PyOutcome.ok d → hasBoolKey d "success" = true)
    (now : Rat) (s : StockAgentSystem) (query symbol topic : String)
    (symbols : List String) :
    resultChecked (StockAgentSystem.analyze_query orch now s query).fst = true ∧
    resultChecked (StockAgentSystem.get_stock_price orch now s symbol).fst = true ∧
    resultChecked (StockAgentSystem.get_stock_info orch now s symbol).fst = true ∧
    resultChecked (StockAgentSystem.analyze_stock orch now s symbol).fst = true ∧
    resultChecked (StockAgentSystem.compare_stocks orch now s symbols).fst = true ∧
    resultChecked (StockAgentSystem.portfolio_analysis orch now s symbols).fst = true ∧
    resultChecked (StockAgentSystem.market_research orch now s topic).fst = true :=
  ⟨analyze_query_resultChecked orch hw now s query,
   analyze_query_resultChecked orch hw now s _,
   analyze_query_resultChecked orch hw now s _,
   analyze_query_resultChecked orch hw now s _,
   analyze_query_resultChecked orch hw now s _,
   analyze_query_resultChecked orch hw now s _,
   analyze_query_resultChecked orch hw now s _⟩

/-- C1, witness: the amended theorem applied to a concrete well-formed
orchestrator, the uninitialized state (exercising the guard path) and concrete
arguments. -/
theorem C1_witness :
    resultChecked (StockAgentSystem.analyze_query orchOkTrue 0 sysDown "q").fst = true ∧
    resultChecked (StockAgentSystem.get_stock_price orchOkTrue 0 sysDown "AAPL").fst = true ∧
    resultChecked (StockAgentSystem.get_stock_info orchOkTrue 0 sysDown "AAPL").fst = true ∧
    resultChecked (StockAgentSystem.analyze_stock orchOkTrue 0 sysDown "AAPL").fst = true ∧
    resultChecked (StockAgentSystem.compare_stocks orchOkTrue 0 sysDown ["AAPL", "MSFT"]).fst = true ∧
    resultChecked (StockAgentSystem.portfolio_analysis orchOkTrue 0 sysDown ["AAPL", "MSFT"]).fst = true ∧
    resultChecked (StockAgentSystem.market_research orchOkTrue 0 sysDown "tech").fst = true :=
  C1_entry_points_checkable orchOkTrue
    (fun _ d h => by cases h; decide) 0 sysDown "q" "AAPL" "tech" ["AAPL", "MSFT"]

/-- C2, counterexample: when `is_initialized` is false the returned dictionary
has no `success` key, so it is not the claimed dictionary with `success: false`
and `error: "System not initialized"`. -/
theorem C2_counterexample :
    dictGet (StockAgentSystem.analyze_query orchRaises 0 sysDown "q").fst "success" = none := by
  decide

/-- C2 (amended): for every query, if `is_initialized` is false when
`analyze_query` is called, the returned result is exactly the one-key
dictionary with `error` bound to "System not initialized" (no `success` key),
and the state — in particular the session history — is left unchanged. -/
theorem C2_uninitialized_guard (orch : Orchestrator) (now : Rat)
    (s : StockAgentSystem) (query : String) (h : s.is_initialized = false) :
    StockAgentSystem.analyze_query orch now s query =
      ([("error", PyVal.str "System not initialized")], s) := by
  simp [StockAgentSystem.analyze_query, h]

/-- C2, witness: the guard theorem at a concrete uninitialized state. -/
theorem C2_witness :
    StockAgentSystem.analyze_query orchRaises 0 sysDown "q" =
      ([("error", PyVal.str "System not initialized")], sysDown) :=
  C2_uninitialized_guard orchRaises 0 sysDown "q" rfl

/-- C3: whenever `analyze_query` passes the guard and the orchestrator returns
a result dictionary — whether that AgentResult is a success or a failure — the
session history grows by exactly one entry. -/
theorem C3_history_grows_by_one (orch : Orchestrator) (now : Rat)
    (s : StockAgentSystem) (query : String) (d : Dict)
    (hinit : s.is_initialized = true) (hres : orch query = PyOutcome.ok d) :
    (StockAgentSystem.analyze_query orch now s query).snd.session_history.length =
      s.session_history.length + 1 := by
  simp [StockAgentSystem.analyze_query, hinit, hres]

/-- C3, witness: the history-growth theorem at a concrete initialized state
with an orchestrator returning a failed AgentResult. -/
theorem C3_witness :
    (StockAgentSystem.analyze_query orchOkFalse 0 sysReady "q").snd.session_history.length =
      sysReady.session_history.length + 1 :=
  C3_history_grows_by_one orchOkFalse 0 sysReady "q"
    [("success", PyVal.bool false), ("error", PyVal.str "tool error"),
     ("agent", PyVal.str "junior")] rfl rfl

/-- C4: if the orchestrator call raises, `analyze_query` catches the exception
and returns (rather than propagating) a failure dictionary carrying the error
message and the original query. -/
theorem C4_exception_caught (orch : Orchestrator) (now : Rat)
    (s : StockAgentSystem) (query e : String)
    (hinit : s.is_initialized = true) (hexn : orch query = PyOutcome.exn e) :
    (StockAgentSystem.analyze_query orch now s query).fst =
      [("error", PyVal.str ("Analysis failed: " ++ e)),
       ("query", PyVal.str query)] := by
  simp [StockAgentSystem.analyze_query, hinit, hexn]

/-- C4, witness: the exception-path theorem at a concrete raising orchestrator. -/
theorem C4_witness :
    (StockAgentSystem.analyze_query orchRaises 0 sysReady "q").fst =
      [("error", PyVal.str ("Analysis failed: " ++ "boom")),
       ("query", PyVal.str "q")] :=
  C4_exception_caught orchRaises 0 sysReady "q" "boom" rfl rfl

/-- C5: for every configuration, construction raises if and only if the LLM
credential is falsy — the error is produced by `validate_config`, before any
agent is created — while absence of both stock-data credentials (when the LLM
credential is present) only emits the warning and construction still succeeds. -/
theorem C5_construction_failure (c : Config) (agentInitOk : Bool) :
    ((∃ e, systemInit c agentInitOk = Except.error e) ↔
        truthy c.OPENAI_API_KEY = false) ∧
    (truthy c.OPENAI_API_KEY = true →
      truthy c.ALPHA_VANTAGE_API_KEY = false →
      truthy c.FINNHUB_API_KEY = false →
      c.validate_config =
          Except.ok ["Warning: No stock API key found. Using yfinance as fallback."] ∧
        systemInit c agentInitOk =
          Except.ok { is_initialized := agentInitOk, session_history := [] }) := by
  constructor
  · by_cases hk : truthy c.OPENAI_API_KEY
    · by_cases hs : (!truthy c.ALPHA_VANTAGE_API_KEY && !truthy c.FINNHUB_API_KEY) = true
      · simp [systemInit, Config.validate_config, hk, hs]
      · simp [systemInit, Config.validate_config, hk, hs]
    · simp [systemInit, Config.validate_config, hk]
  · intro hk ha hf
    simp [systemInit, Config.validate_config, hk, ha, hf]

/-- C5, witness: at the concrete environment with only the LLM credential set,
the warning-clause hypotheses about the credentials hold, and the theorem
yields both the failure characterization and the warning-then-proceed behavior. -/
theorem C5_witness :
    (truthy (Config.fromEnv envOnlyOpenAI).OPENAI_API_KEY = true ∧
     truthy (Config.fromEnv envOnlyOpenAI).ALPHA_VANTAGE_API_KEY = false ∧
     truthy (Config.fromEnv envOnlyOpenAI).FINNHUB_API_KEY = false) ∧
    ((∃ e, systemInit (Config.fromEnv envOnlyOpenAI) true = Except.error e) ↔
        truthy (Config.fromEnv envOnlyOpenAI).OPENAI_API_KEY = false) ∧
    (Config.fromEnv envOnlyOpenAI).validate_config =
        Except.ok ["Warning: No stock API key found. Using yfinance as fallback."] ∧
    systemInit (Config.fromEnv envOnlyOpenAI) true =
        Except.ok { is_initialized := true, session_history := [] } :=
  ⟨⟨by decide, by decide, by decide⟩,
   (C5_construction_failure (Config.fromEnv envOnlyOpenAI) true).1,
   ((C5_construction_failure (Config.fromEnv envOnlyOpenAI) true).2
      (by decide) (by decide) (by decide)).1,
   ((C5_construction_failure (Config.fromEnv envOnlyOpenAI) true).2
      (by decide) (by decide) (by decide)).2⟩

/-- C6: each convenience wrapper equals `analyze_query` applied to its fixed
template string (with `compare_stocks` and `portfolio_analysis` first joining
the symbols with a comma and a space); result and updated state coincide, so
the wrappers perform no other logic and no other state change. -/
theorem C6_wrappers_template_expansion (orch : Orchestrator) (now : Rat)
    (s : StockAgentSystem) (symbol topic : String) (symbols : List String) :
    StockAgentSystem.get_stock_price orch now s symbol =
      StockAgentSystem.analyze_query orch now s
        ("Get the current stock price for " ++ symbol) ∧
    StockAgentSystem.get_stock_info orch now s symbol =
      StockAgentSystem.analyze_query orch now s
        ("Get detailed information about " ++ symbol) ∧
    StockAgentSystem.analyze_stock orch now s symbol =
      StockAgentSystem.analyze_query orch now s
        ("Perform comprehensive analysis of " ++ symbol) ∧
    StockAgentSystem.compare_stocks orch now s symbols =
      StockAgentSystem.analyze_query orch now s
        ("Compare these stocks: " ++ String.intercalate ", " symbols) ∧
    StockAgentSystem.portfolio_analysis orch now s symbols =
      StockAgentSystem.analyze_query orch now s
        ("Analyze this portfolio: " ++ String.intercalate ", " symbols) ∧
    StockAgentSystem.market_research orch now s topic =
      StockAgentSystem.analyze_query orch now s
        ("Research the market for: " ++ topic) :=
  ⟨rfl, rfl, rfl, rfl, rfl, rfl⟩

/-- C7: clearing the session history makes `get_session_history` return the
empty sequence, and clearing twice leaves the state identical to clearing once. -/
theorem C7_clear_history (s : StockAgentSystem) :
    StockAgentSystem.get_session_history (StockAgentSystem.clear_session_history s) = [] ∧
    StockAgentSystem.clear_session_history (StockAgentSystem.clear_session_history s) =
      StockAgentSystem.clear_session_history s :=
  ⟨rfl, rfl⟩

/-- C8, counterexample: with every environment option unset, the resolved
orchestrator temperature is not 0.7 (the 0.7 default belongs to the master
agent; the orchestrator default is 0.3). -/
theorem C8_counterexample :
    (Config.fromEnv emptyEnv).ORCHESTRATOR_AGENT_TEMPERATURE ≠ (7 : Rat) / 10 := by
  have h : (Config.fromEnv emptyEnv).ORCHESTRATOR_AGENT_TEMPERATURE = pyFloat "0.3" := rfl
  rw [h, pyFloat_zero_three]
  norm_num

/-- C8 (amended): with every environment option unset, the resolved defaults
are master temperature 0.7, junior temperature 0.5, orchestrator temperature
0.3, maximum reasoning iterations 10, verbosity on, and model "gpt-4". -/
theorem C8_defaults :
    (Config.fromEnv emptyEnv).MASTER_AGENT_TEMPERATURE = (7 : Rat) / 10 ∧
    (Config.fromEnv emptyEnv).JUNIOR_AGENT_TEMPERATURE = (5 : Rat) / 10 ∧
    (Config.fromEnv emptyEnv).ORCHESTRATOR_AGENT_TEMPERATURE = (3 : Rat) / 10 ∧
    (Config.fromEnv emptyEnv).MAX_ITERATIONS = 10 ∧
    (Config.fromEnv emptyEnv).VERBOSE = true ∧
    (Config.fromEnv emptyEnv).OPENAI_MODEL = "gpt-4" := by
  have hm : (Config.fromEnv emptyEnv).MASTER_AGENT_TEMPERATURE = pyFloat "0.7" := rfl
  have hj : (Config.fromEnv emptyEnv).JUNIOR_AGENT_TEMPERATURE = pyFloat "0.5" := rfl
  have ho : (Config.fromEnv emptyEnv).ORCHESTRATOR_AGENT_TEMPERATURE = pyFloat "0.3" := rfl
  exact ⟨hm.trans pyFloat_zero_seven, hj.trans pyFloat_zero_five,
         ho.trans pyFloat_zero_three, by decide, by decide, by decide⟩

/-- C9: the stock-data credential choice follows the fixed preference order —
the primary credential when it is set and non-empty, otherwise the secondary
one — and the chosen value is truthy exactly when one of the two credentials
is, so when neither is present the result is falsy and the unauthenticated
fallback is used. -/
theorem C9_stock_key_preference (c : Config) :
    (c.get_stock_api_key =
      if truthy c.ALPHA_VANTAGE_API_KEY then c.ALPHA_VANTAGE_API_KEY
      else c.FINNHUB_API_KEY) ∧
    truthy c.get_stock_api_key =
      (truthy c.ALPHA_VANTAGE_API_KEY || truthy c.FINNHUB_API_KEY) := by
  constructor
  · rfl
  · by_cases hA : truthy c.ALPHA_VANTAGE_API_KEY <;>
      simp [Config.get_stock_api_key, pyOr, hA]

/-- C10: if the orchestrator call inside `analyze_query` raises, the session
history — indeed the whole object state — is left exactly as it was before the
call: the caught-exception branch appends nothing. -/
theorem C10_exception_atomic (orch : Orchestrator) (now : Rat)
    (s : StockAgentSystem) (query e : String)
    (hinit : s.is_initialized = true) (hexn : orch query = PyOutcome.exn e) :
    (StockAgentSystem.analyze_query orch now s query).snd.session_history =
      s.session_history ∧
    (StockAgentSystem.analyze_query orch now s query).snd = s := by
  simp [StockAgentSystem.analyze_query, hinit, hexn]

/-- C10, witness: the atomicity theorem with a concrete raising orchestrator
and a nonempty starting history. -/
theorem C10_witness :
    (StockAgentSystem.analyze_query orchRaises 0
        { is_initialized := true,
          session_history := [{ query := "p", result := [], timestamp := 0 }] }
        "q").snd.session_history =
      [{ query := "p", result := [], timestamp := 0 }] ∧
    (StockAgentSystem.analyze_query orchRaises 0
        { is_initialized := true,
          session_history := [{ query := "p", result := [], timestamp := 0 }] }
        "q").snd =
      { is_initialized := true,
        session_history := [{ query := "p", result := [], timestamp := 0 }] } :=
  C10_exception_atomic orchRaises 0
    { is_initialized := true,
      session_history := [{ query := "p", result := [], timestamp := 0 }] }
    "q" "boom" rfl rfl

end StockAI
